import Mathlib

set_option maxHeartbeats 1000000
set_option autoImplicit false

/-!
Shallow embedding of the Sick LMS 2xx consumer code of this repository:
the MATLAB mex bridge `src/matlab/interfaces/lms/lmsmex.cc` and the two
example programs `lms_simple_app/src/main.cc` and
`lms_set_variant/src/main.cc`.  The driver library (SickLMS.cc) is not in
the repository snapshot; driver calls are modelled as environment
behaviours, and the pure conversion utilities are modelled from the spec
(each such definition says so in its doc comment).
-/

/-- Measuring mode of the device, as far as the bridge inspects it: the
bridge only branches on whether the mode is the reflectivity-only mode. -/
inductive MeasMode where
  | range
  | reflectivity
  | rangeReflect
  | unknownMode
deriving DecidableEq, Repr

/-- Baud-rate enumeration (sick_lms_baud_t), with the unknown sentinel. -/
inductive SickBaud where
  | b9600
  | b19200
  | b38400
  | b500000
  | unknown
deriving DecidableEq, Repr

/-- Scan-angle (field of view) enumeration with the unknown sentinel. -/
inductive SickScanAngle where
  | a100
  | a180
  | unknown
deriving DecidableEq, Repr

/-- Scan-resolution enumeration with the unknown sentinel. -/
inductive SickScanRes where
  | r25
  | r50
  | r100
  | unknown
deriving DecidableEq, Repr

/-- Modelled from the spec: `SickLMS::IntToSickBaud` is not under src/ (only
its callers are).  The spec says the int-to-enum conversion is pure and
returns the unknown sentinel for any value outside 9600, 19200, 38400,
500000. -/
def IntToSickBaud (n : Int) : SickBaud :=
  if n = 9600 then .b9600
  else if n = 19200 then .b19200
  else if n = 38400 then .b38400
  else if n = 500000 then .b500000
  else .unknown

/-- Modelled from the spec: `SickLMS::StringToSickBaud` is not under src/.
The string-to-enum conversion is pure and returns the unknown sentinel for
any string not naming one of the four supported rates. -/
def StringToSickBaud (s : String) : SickBaud :=
  if s = "9600" then .b9600
  else if s = "19200" then .b19200
  else if s = "38400" then .b38400
  else if s = "500000" then .b500000
  else .unknown

/-- Modelled from the spec: `SickLMS::IntToSickScanAngle` is not under src/.
Valid field-of-view values are 100 and 180 degrees; anything else maps to
the unknown sentinel. -/
def IntToSickScanAngle (n : Int) : SickScanAngle :=
  if n = 100 then .a100
  else if n = 180 then .a180
  else .unknown

/-- Modelled from the spec: `SickLMS::DoubleToSickScanResolution` is not
under src/.  Valid resolutions are 0.25, 0.50 and 1.00 degrees; anything
else maps to the unknown sentinel. -/
def DoubleToSickScanResolution (x : ℚ) : SickScanRes :=
  if x = 1/4 then .r25
  else if x = 1/2 then .r50
  else if x = 1 then .r100
  else .unknown

/-- Observable state of one SickLMS driver object, through the getters the
bridge calls.  `uninitThrows` is environment knowledge: whether a teardown
call on this object would throw. -/
structure SickLMS where
  devPath : String
  initialized : Bool
  lmsFast : Bool
  unitsMM : Bool
  measMode : MeasMode
  scanRes : ℚ
  scanFov : ℚ
  uninitThrows : Bool
deriving DecidableEq, Repr

/-- The global `sick_lms_map` of device handles: an association list from
device path to SickLMS pointer, where `none` models a NULL pointer. -/
abbrev Registry := List (String × Option SickLMS)

/-- Pure lookup (std::map::find): the stored pointer, if the key exists. -/
def mapLookup : Registry → String → Option (Option SickLMS)
  | [], _ => none
  | (q, w) :: t, p => if q = p then some w else mapLookup t p

/-- sickInMap (lmsmex.cc lines 706-708): whether the path is a map key. -/
def sickInMap (r : Registry) (p : String) : Bool :=
  (mapLookup r p).isSome

/-- Reading `sick_lms_map[p]`: returns the stored pointer, default-inserting
a NULL pointer when the key is absent (std::map operator square-bracket
semantics). -/
def mapIndexRead : Registry → String → Option SickLMS × Registry
  | [], p => (none, [(p, none)])
  | (q, w) :: t, p =>
      if q = p then (w, (q, w) :: t)
      else
        let z := mapIndexRead t p
        (z.1, (q, w) :: z.2)

/-- Assignment `sick_lms_map[p] = v`: overwrite an existing entry or add a
new one. -/
def mapStore : Registry → String → Option SickLMS → Registry
  | [], p, v => [(p, v)]
  | (q, w) :: t, p, v =>
      if q = p then (q, v) :: t else (q, w) :: mapStore t p v

/-- Erasure `sick_lms_map.erase(p)`: remove the entry with the key, if any. -/
def mapErase : Registry → String → Registry
  | [], _ => []
  | (q, w) :: t, p => if q = p then t else (q, w) :: mapErase t p

/-- Number of entries stored under a key (1 or 0 for an actual std::map). -/
def countKey (r : Registry) (p : String) : Nat :=
  (r.filter (fun e => e.1 = p)).length

/-- Wire-level driver invocations made by the bridge; these are the only
points where bytes are transmitted toward the device. -/
inductive DriverCall where
  | initCall (path : String) (baud : SickBaud)
  | setVariantCall (path : String)
  | getScanCall (path : String)
  | uninitCall (path : String)
deriving DecidableEq, Repr

/-- The distinct mexErrMsgTxt abort sites of the bridge. -/
inductive MexErr where
  | badArgCount
  | badOutCount
  | capacity
  | badBaud
  | ioError
  | otherError
  | noDevice
  | multipleDevices
  | pathNotFound
  | notInit
  | fastUnsupported
  | badScanAngle
  | badScanRes
  | configError
deriving DecidableEq, Repr

/-- Outcome of one mex command: a normal return value, a mexErrMsgTxt abort
(the global map keeps any mutations made before the abort), or undefined
behavior from dereferencing a NULL SickLMS pointer. -/
inductive MexOutcome (α : Type) where
  | ok (val : α)
  | err (e : MexErr)
  | crash
deriving DecidableEq, Repr

/-- cleanup (lmsmex.cc lines 711-733): reads the map entry (default-inserting
NULL when absent) and, when it is non-NULL, attempts Uninitialize on an
initialized device - an exception there is caught and logged as a warning
(the Bool result) - then deletes the object and erases the map entry.  A
NULL entry is left in place untouched. -/
def cleanup (r : Registry) (p : String) : Registry × List DriverCall × Bool :=
  match mapIndexRead r p with
  | (none, r1) => (r1, [], false)
  | (some s, r1) =>
      if s.initialized then
        (mapErase r1 p, [DriverCall.uninitCall p], s.uninitThrows)
      else
        (mapErase r1 p, [], false)

/-- Environment behaviour of the SickLMS calls inside the try block of
initSick: success carries the driver-object state after Initialize and the
getters; the error constructors model a SickIOException and any other
exception. -/
inductive InitOutcome where
  | success (post : SickLMS)
  | ioErr
  | otherErr
deriving DecidableEq, Repr

/-- State of a freshly constructed `new SickLMS(path)` before Initialize. -/
def blankSession (p : String) : SickLMS :=
  ⟨p, false, false, false, .unknownMode, 0, 0, false⟩

/-- Struct returned by a successful init command. -/
structure InitStruct where
  path : String
  lmsFast : Bool
  unitsMM : Bool
  measMode : MeasMode
deriving DecidableEq, Repr

/-- MAX_NUM_LMS_DEVICES (lmsmex.cc line 32). -/
def maxNumLmsDevices : Nat := 4

/-- initSick (lmsmex.cc lines 156-288): argument-count checks, the capacity
guard comparing the map size for equality with the maximum, teardown of an
existing entry under the same path, baud conversion with sentinel rejection,
then construction and Initialize with exception handling. -/
def initSick (r : Registry) (nrhs nlhs : Nat) (pathArg : String)
    (baudArg : Int) (beh : InitOutcome) :
    Registry × List DriverCall × MexOutcome InitStruct :=
  if nrhs ≠ 3 then (r, [], .err .badArgCount)
  else if nlhs > 1 then (r, [], .err .badOutCount)
  else if r.length = maxNumLmsDevices then (r, [], .err .capacity)
  else
    let step :=
      if sickInMap r pathArg then
        let c := cleanup r pathArg
        (c.1, c.2.1)
      else (r, ([] : List DriverCall))
    let r1 := step.1
    let tr1 := step.2
    let b := IntToSickBaud baudArg
    if b = SickBaud.unknown then (r1, tr1, .err .badBaud)
    else
      let r2 := mapStore r1 pathArg (some (blankSession pathArg))
      let tr2 := tr1 ++ [DriverCall.initCall pathArg b]
      match beh with
      | .success post =>
          (mapStore r2 pathArg (some post), tr2,
            .ok ⟨pathArg, post.lmsFast, post.unitsMM, post.measMode⟩)
      | .ioErr =>
          let c := cleanup r2 pathArg
          (c.1, tr2 ++ c.2.1, .err .ioError)
      | .otherErr =>
          let c := cleanup r2 pathArg
          (c.1, tr2 ++ c.2.1, .err .otherError)

/-- Result of the shared device-path resolution block. -/
inductive Resolved where
  | ok (p : String)
  | failed (e : MexErr)
  | crashed
deriving DecidableEq, Repr

/-- Device-path resolution block repeated verbatim in clearSick,
setSickVariant, grabSickVals and printSickInfo: with no path argument a
single registered device resolves to GetSickDevicePath of the first map
entry (a NULL first entry means a NULL dereference), while multiple devices
demand an explicit path; an explicit path must be a registered key. -/
def resolveDevPath (r : Registry) (pathGiven : Option String) : Resolved :=
  match pathGiven with
  | none =>
      if r.length = 1 then
        match r with
        | (_, some s) :: _ => .ok s.devPath
        | _ => .crashed
      else .failed .multipleDevices
  | some p => if sickInMap r p then .ok p else .failed .pathNotFound

/-- clearSick (lmsmex.cc lines 291-351): argument checks, device-path
resolution, the initialized check (dereferencing the map entry), then
cleanup of the resolved device. -/
def clearSick (r : Registry) (nrhs nlhs : Nat) (pathArg : String) :
    Registry × List DriverCall × MexOutcome Unit :=
  if nrhs > 2 then (r, [], .err .badArgCount)
  else if nlhs > 0 then (r, [], .err .badOutCount)
  else if r.length = 0 then (r, [], .err .noDevice)
  else
    let res :=
      if nrhs = 1 then resolveDevPath r none
      else if nrhs = 2 then resolveDevPath r (some pathArg)
      else Resolved.ok ""
    match res with
    | .failed e => (r, [], .err e)
    | .crashed => (r, [], .crash)
    | .ok p =>
        match mapIndexRead r p with
        | (none, r1) => (r1, [], .crash)
        | (some s, r1) =>
            if s.initialized then
              let c := cleanup r1 p
              (c.1, c.2.1, .ok ())
            else (r1, [], .err .notInit)

/-- printSickInfo (lmsmex.cc lines 642-703): same shape as clearSick but it
only prints the status and software-version strings of the resolved
device. -/
def printSickInfo (r : Registry) (nrhs nlhs : Nat) (pathArg : String) :
    Registry × List DriverCall × MexOutcome Unit :=
  if nrhs > 2 then (r, [], .err .badArgCount)
  else if nlhs > 0 then (r, [], .err .badOutCount)
  else if r.length = 0 then (r, [], .err .noDevice)
  else
    let res :=
      if nrhs = 1 then resolveDevPath r none
      else if nrhs = 2 then resolveDevPath r (some pathArg)
      else Resolved.ok ""
    match res with
    | .failed e => (r, [], .err e)
    | .crashed => (r, [], .crash)
    | .ok p =>
        match mapIndexRead r p with
        | (none, r1) => (r1, [], .crash)
        | (some s, r1) =>
            if s.initialized then (r1, [], .ok ())
            else (r1, [], .err .notInit)

/-- Environment behaviour of the driver SetSickVariant call. -/
inductive VariantOutcome where
  | success
  | configErr
  | otherErr
deriving DecidableEq, Repr

/-- setSickVariant (lmsmex.cc lines 354-450): argument checks, device-path
resolution (explicit path is the fourth argument), initialized check, the
LMS-Fast rejection, scan-angle and scan-resolution conversion with sentinel
rejection, then the driver SetSickVariant call with a SickConfigException
handler that keeps the session and a catch-all that tears it down. -/
def setSickVariant (r : Registry) (nrhs nlhs : Nat) (angleArg : Int)
    (resArg : ℚ) (pathArg : String) (beh : VariantOutcome) :
    Registry × List DriverCall × MexOutcome Unit :=
  if nrhs > 4 then (r, [], .err .badArgCount)
  else if nlhs > 0 then (r, [], .err .badOutCount)
  else if r.length = 0 then (r, [], .err .noDevice)
  else
    let res :=
      if nrhs = 3 then resolveDevPath r none
      else if nrhs = 4 then resolveDevPath r (some pathArg)
      else Resolved.ok ""
    match res with
    | .failed e => (r, [], .err e)
    | .crashed => (r, [], .crash)
    | .ok p =>
        match mapIndexRead r p with
        | (none, r1) => (r1, [], .crash)
        | (some s, r1) =>
            if s.initialized then
              if s.lmsFast then (r1, [], .err .fastUnsupported)
              else if IntToSickScanAngle angleArg = SickScanAngle.unknown then
                (r1, [], .err .badScanAngle)
              else if DoubleToSickScanResolution resArg = SickScanRes.unknown then
                (r1, [], .err .badScanRes)
              else
                match beh with
                | .success => (r1, [DriverCall.setVariantCall p], .ok ())
                | .configErr => (r1, [DriverCall.setVariantCall p], .err .configError)
                | .otherErr =>
                    let c := cleanup r1 p
                    (c.1, DriverCall.setVariantCall p :: c.2.1, .err .otherError)
            else (r1, [], .err .notInit)

/-- Struct returned by a successful grab command. -/
structure GrabStruct where
  res : ℚ
  fov : ℚ
  rangeVals : Option (List Nat)
  reflectVals : Option (List Nat)
  bearing : List ℚ
deriving DecidableEq, Repr

/-- Environment behaviour of the driver GetSickScan call and the getters
that follow it inside the try block of grabSickVals: success carries the
measurement buffers the driver filled and the driver-object state those
getters then observe. -/
inductive GrabOutcome where
  | success (priVals secVals : List Nat) (post : SickLMS)
  | otherErr
deriving DecidableEq, Repr

/-- Output-argument check at the top of grabSickVals (lmsmex.cc lines
489-496): when the left operand of the short-circuit conjunction holds, the
right operand dereferences the map entry for the still-empty device path. -/
def grabOutCheck (r : Registry) (cond : Bool) :
    Registry × Option (MexOutcome GrabStruct) :=
  if cond then
    match mapIndexRead r "" with
    | (none, r1) => (r1, some .crash)
    | (some s, r1) => (r1, if s.lmsFast then some (.err .badOutCount) else none)
  else (r, none)

/-- grabSickVals (lmsmex.cc lines 453-639): the two output-argument checks
(each consulting the map under the still-empty path when its count condition
holds), the registry non-empty check, device-path resolution, initialized
check, the GetSickScan exchange, then assembly of the return struct with
bearings computed from the post-scan resolution and field of view. -/
def grabSickVals (r : Registry) (nrhs nlhs : Nat) (pathArg : String)
    (beh : GrabOutcome) : Registry × List DriverCall × MexOutcome GrabStruct :=
  if nrhs > 2 then (r, [], .err .badArgCount)
  else
    match grabOutCheck r (decide (nlhs > 2)) with
    | (rA, some o) => (rA, [], o)
    | (rA, none) =>
      match grabOutCheck rA (decide (nlhs > 1)) with
      | (rB, some o) => (rB, [], o)
      | (rB, none) =>
        if rB.length = 0 then (rB, [], .err .noDevice)
        else
          let res :=
            if nrhs = 1 then resolveDevPath rB none
            else if nrhs = 2 then resolveDevPath rB (some pathArg)
            else Resolved.ok ""
          match res with
          | .failed e => (rB, [], .err e)
          | .crashed => (rB, [], .crash)
          | .ok p =>
              match mapIndexRead rB p with
              | (none, r1) => (r1, [], .crash)
              | (some s, r1) =>
                  if s.initialized then
                    match beh with
                    | .otherErr =>
                        let c := cleanup r1 p
                        (c.1, DriverCall.getScanCall p :: c.2.1, .err .otherError)
                    | .success pri sec post =>
                        let r2 := mapStore r1 p (some post)
                        let rangeField :=
                          if post.lmsFast then some pri
                          else if post.measMode = MeasMode.reflectivity then none
                          else some pri
                        let reflectField :=
                          if post.lmsFast then some sec
                          else if post.measMode = MeasMode.reflectivity then some pri
                          else none
                        let bearings := (List.range pri.length).map
                          (fun i : Nat => (180 - post.scanFov) / 2 + (i : ℚ) * post.scanRes)
                        (r2, [DriverCall.getScanCall p],
                          .ok ⟨post.scanRes, post.scanFov, rangeField, reflectField, bearings⟩)
                  else (r1, [], .err .notInit)

/-- Loop body of mexExit (lmsmex.cc lines 736-743): while the map is
nonempty, call cleanup on the first key.  Fuel bounds the number of loop
iterations; the result is the remaining registry, the driver-call trace and
the number of logged teardown warnings. -/
def mexExitAux : Nat → Registry → Registry × List DriverCall × Nat
  | 0, r => (r, [], 0)
  | Nat.succ fuel, r =>
      match r with
      | [] => ([], [], 0)
      | (p, _) :: _ =>
          let c := cleanup r p
          let z := mexExitAux fuel c.1
          (z.1, c.2.1 ++ z.2.1, (if c.2.2 then 1 else 0) + z.2.2)

/-- mexExit with fuel equal to the number of registered sessions, which is
enough when every stored pointer is non-NULL. -/
def mexExit (r : Registry) : Registry × List DriverCall × Nat :=
  mexExitAux r.length r

/-- Result of the argument-parsing prologue the two example programs share:
exit with usage text, exit on a bad baud string, or proceed to construct and
run a session with the given path and baud. -/
inductive ExampleStart where
  | usageExit
  | badBaudExit
  | proceed (path : String) (baud : SickBaud)
deriving DecidableEq, Repr

/-- Argument-parsing prologue shared verbatim by lms_simple_app
(main.cc lines 33-51) and lms_set_variant (main.cc lines 34-52): usage exit
for a wrong argument count or a help flag, the default baud of 38400 when
only a path is given, and a rejection exit when the baud string converts to
the unknown sentinel - only the proceed result goes on to Initialize. -/
def exampleMainStart (argv : List String) : ExampleStart :=
  let argc := argv.length
  if (argc ≠ 2 ∧ argc ≠ 3) ∨ (argc = 2 ∧ (argv.getD 1 "").toLower = "--help") then
    .usageExit
  else if argc = 2 then .proceed (argv.getD 1 "") .b38400
  else
    let b := StringToSickBaud (argv.getD 2 "")
    if b = SickBaud.unknown then .badBaudExit
    else .proceed (argv.getD 1 "") b

/-- Per-iteration outcome of one GetSickScan call in the example
acquisition loops: a successful scan with a value count, a
SickTimeoutException, or any other exception. -/
inductive ScanOutcome where
  | success (n : Nat)
  | timeout
  | fatal
deriving DecidableEq, Repr

/-- Acquisition loop of the example programs (lms_simple_app main.cc lines
68-87, lms_set_variant main.cc lines 83-106 and 118-140): each iteration
calls GetSickScan; a timeout is caught and logged and the loop continues,
while any other exception propagates out of the loop.  Returns the number
of attempts made, the number of timeouts logged, and whether an exception
propagated. -/
def scanLoopAux : Nat → Nat → (Nat → ScanOutcome) → Nat × Nat × Bool
  | 0, _, _ => (0, 0, false)
  | Nat.succ fuel, i, beh =>
      match beh i with
      | .fatal => (1, 0, true)
      | .timeout =>
          let z := scanLoopAux fuel (i + 1) beh
          (z.1 + 1, z.2.1 + 1, z.2.2)
      | .success _ =>
          let z := scanLoopAux fuel (i + 1) beh
          (z.1 + 1, z.2.1, z.2.2)

/-- The example acquisition loop runs for exactly 10 iterations unless an
exception other than a timeout escapes earlier. -/
def getScanLoop (beh : Nat → ScanOutcome) : Nat × Nat × Bool :=
  scanLoopAux 10 0 beh

/-! Basic lemmas about the registry operations. -/

theorem mapIndexRead_of_lookup (r : Registry) (p : String) (w : Option SickLMS)
    (h : mapLookup r p = some w) : mapIndexRead r p = (w, r) := by
  induction r with
  | nil => simp [mapLookup] at h
  | cons e t ih =>
      obtain ⟨q, u⟩ := e
      by_cases hq : q = p
      · subst hq
        simp [mapLookup] at h
        simp [mapIndexRead, h]
      · simp [mapLookup, hq] at h
        simp [mapIndexRead, hq, ih h]

theorem sickInMap_iff_lookup (r : Registry) (p : String) :
    sickInMap r p = true ↔ ∃ w, mapLookup r p = some w := by
  simp [sickInMap, Option.isSome_iff_exists]

theorem length_pos_of_lookup (r : Registry) (p : String) (w : Option SickLMS)
    (h : mapLookup r p = some w) : 0 < r.length := by
  cases r with
  | nil => simp [mapLookup] at h
  | cons e t => simp

theorem mapLookup_mapStore_self (r : Registry) (p : String) (v : Option SickLMS) :
    mapLookup (mapStore r p v) p = some v := by
  induction r with
  | nil => simp [mapStore, mapLookup]
  | cons e t ih =>
      obtain ⟨q, u⟩ := e
      by_cases hq : q = p
      · subst hq; simp [mapStore, mapLookup]
      · simp [mapStore, mapLookup, hq, ih]

theorem mapErase_length_le (r : Registry) (p : String) :
    (mapErase r p).length ≤ r.length := by
  induction r with
  | nil => simp [mapErase]
  | cons e t ih =>
      obtain ⟨q, u⟩ := e
      by_cases hq : q = p
      · simp [mapErase, hq]
      · simp [mapErase, hq]
        omega

theorem mapStore_length_le (r : Registry) (p : String) (v : Option SickLMS) :
    (mapStore r p v).length ≤ r.length + 1 := by
  induction r with
  | nil => simp [mapStore]
  | cons e t ih =>
      obtain ⟨q, u⟩ := e
      by_cases hq : q = p
      · simp [mapStore, hq]
      · simp [mapStore, hq]; omega

theorem mapStore_length_of_mem (r : Registry) (p : String) (v w : Option SickLMS)
    (h : mapLookup r p = some w) : (mapStore r p v).length = r.length := by
  induction r with
  | nil => simp [mapLookup] at h
  | cons e t ih =>
      obtain ⟨q, u⟩ := e
      by_cases hq : q = p
      · simp [mapStore, hq]
      · simp [mapLookup, hq] at h
        simp [mapStore, hq, ih h]

theorem countKey_nil (p : String) : countKey [] p = 0 := rfl

theorem countKey_cons (q : String) (u : Option SickLMS) (t : Registry) (p : String) :
    countKey ((q, u) :: t) p = (if q = p then 1 else 0) + countKey t p := by
  by_cases hq : q = p
  · simp [countKey, List.filter, hq]
    omega
  · simp [countKey, List.filter, hq]

theorem countKey_pos_of_lookup (r : Registry) (p : String) (w : Option SickLMS)
    (h : mapLookup r p = some w) : 0 < countKey r p := by
  induction r with
  | nil => simp [mapLookup] at h
  | cons e t ih =>
      obtain ⟨q, u⟩ := e
      by_cases hq : q = p
      · simp [countKey_cons, hq]
      · simp [mapLookup, hq] at h
        have := ih h
        simp [countKey_cons, hq]
        omega

theorem countKey_mapErase_self (r : Registry) (p : String) :
    countKey (mapErase r p) p = countKey r p - 1 := by
  induction r with
  | nil => simp [mapErase, countKey_nil]
  | cons e t ih =>
      obtain ⟨q, u⟩ := e
      by_cases hq : q = p
      · simp [mapErase, hq, countKey_cons]
      · simp [mapErase, hq, countKey_cons, ih]

theorem countKey_mapErase_le (r : Registry) (p q : String) :
    countKey (mapErase r p) q ≤ countKey r q := by
  induction r with
  | nil => simp [mapErase, countKey_nil]
  | cons e t ih =>
      obtain ⟨k, u⟩ := e
      by_cases hk : k = p
      · simp [mapErase, hk, countKey_cons]
      · simp [mapErase, hk, countKey_cons]
        omega

theorem countKey_mapStore_self (r : Registry) (p : String) (v : Option SickLMS) :
    countKey (mapStore r p v) p = max 1 (countKey r p) := by
  induction r with
  | nil => simp [mapStore, countKey_cons, countKey_nil]
  | cons e t ih =>
      obtain ⟨q, u⟩ := e
      by_cases hq : q = p
      · simp [mapStore, hq, countKey_cons]
      · simp [mapStore, hq, countKey_cons, ih]

theorem countKey_mapStore_ne (r : Registry) (p q : String) (v : Option SickLMS)
    (hpq : q ≠ p) : countKey (mapStore r p v) q = countKey r q := by
  induction r with
  | nil =>
      simp [mapStore, countKey_cons, countKey_nil, Ne.symm hpq]
  | cons e t ih =>
      obtain ⟨k, u⟩ := e
      by_cases hk : k = p
      · subst hk
        simp [mapStore, countKey_cons]
      · simp [mapStore, hk, countKey_cons, ih]

theorem cleanup_of_lookup (r : Registry) (p : String) (s : SickLMS)
    (h : mapLookup r p = some (some s)) :
    cleanup r p =
      (mapErase r p,
       if s.initialized then [DriverCall.uninitCall p] else [],
       s.initialized && s.uninitThrows) := by
  unfold cleanup
  rw [mapIndexRead_of_lookup r p (some s) h]
  by_cases hi : s.initialized
  · simp [hi]
  · simp [hi]

theorem sickInMap_of_lookup (r : Registry) (p : String) (w : Option SickLMS)
    (h : mapLookup r p = some w) : sickInMap r p = true := by
  simp [sickInMap, h]

theorem sickInMap_mapStore_self (r : Registry) (p : String) (v : Option SickLMS) :
    sickInMap (mapStore r p v) p = true :=
  sickInMap_of_lookup _ p v (mapLookup_mapStore_self r p v)

theorem cleanup_length_le (r : Registry) (p : String) (h : sickInMap r p = true) :
    (cleanup r p).1.length ≤ r.length := by
  obtain ⟨w, hw⟩ := (sickInMap_iff_lookup r p).mp h
  have hread := mapIndexRead_of_lookup r p w hw
  cases w with
  | none => simp [cleanup, hread]
  | some s =>
      by_cases hi : s.initialized <;>
        simp [cleanup, hread, hi, mapErase_length_le]

theorem cleanup_trace_cases (r : Registry) (p : String) :
    (cleanup r p).2.1 = [] ∨ (cleanup r p).2.1 = [DriverCall.uninitCall p] := by
  unfold cleanup
  split
  · simp
  · split <;> simp

/-! Sample device states used by the concrete witnesses. -/

/-- An initialized standard (non-Fast) device session. -/
def sampleStd : SickLMS :=
  ⟨"/dev/ttyUSB0", true, false, true, .range, 1/2, 180, false⟩

/-- An initialized LMS Fast device session. -/
def sampleFast : SickLMS :=
  ⟨"/dev/ttyUSB0", true, true, true, .rangeReflect, 1/2, 180, false⟩

/-- An initialized standard session on a second port. -/
def sampleStd1 : SickLMS :=
  ⟨"/dev/ttyUSB1", true, false, true, .range, 1/2, 180, false⟩

/-- An initialized standard session on a third port. -/
def sampleStd2 : SickLMS :=
  ⟨"/dev/ttyUSB2", true, false, true, .range, 1/2, 180, false⟩

/-- An initialized standard session on a fourth port. -/
def sampleStd3 : SickLMS :=
  ⟨"/dev/ttyUSB3", true, false, true, .range, 1/2, 180, false⟩

/-- A four-entry registry, at the capacity limit. -/
def fullRegistry : Registry :=
  [("/dev/ttyUSB0", some sampleStd), ("/dev/ttyUSB1", some sampleStd1),
   ("/dev/ttyUSB2", some sampleStd2), ("/dev/ttyUSB3", some sampleStd3)]

/-- C9: evaluation of grabSickVals at the failing input.  A grab command
requesting two output arguments against an empty registry evaluates
the right operand of the output-argument check, which reads
sick_lms_map under the still-empty device path (default-inserting a NULL
entry) and dereferences the NULL pointer - undefined behavior - before the
registry has been checked to be non-empty and before the device path has
been resolved, contradicting the claim that the entry validation consults
no session. -/
theorem grab_out_arg_check_derefs_null_session :
    grabSickVals [] 1 2 "" GrabOutcome.otherErr =
      ([("", none)], [], MexOutcome.crash) := by
  rfl

/-- C1: a variant command dispatched to an initialized session whose device
reports the Fast sub-family fails with the LMS-Fast configuration-rejection
error for arbitrary (even invalid) raw scan-angle and scan-resolution
arguments - so before those arguments are converted - the driver
SetSickVariant is never invoked (the driver-call trace is empty, so no
bytes are transmitted) and the registry is unchanged.  Both dispatch forms
are covered: the implicit single-device form (nrhs = 3) and the
explicit-path form (nrhs = 4). -/
theorem setSickVariant_fast_rejected_before_conversion
    (angleArg : Int) (resArg : ℚ) (beh : VariantOutcome) :
    (∀ (k pathArg : String) (s : SickLMS),
        s.devPath = k → s.initialized = true → s.lmsFast = true →
        setSickVariant [(k, some s)] 3 0 angleArg resArg pathArg beh =
          ([(k, some s)], [], .err .fastUnsupported)) ∧
    (∀ (r : Registry) (p : String) (s : SickLMS),
        mapLookup r p = some (some s) → s.initialized = true → s.lmsFast = true →
        setSickVariant r 4 0 angleArg resArg p beh =
          (r, [], .err .fastUnsupported)) := by
  constructor
  · intro k pathArg s hk hi hf
    subst hk
    simp [setSickVariant, resolveDevPath, mapIndexRead, hi, hf]
  · intro r p s hl hi hf
    have hlen : r.length ≠ 0 := by
      have := length_pos_of_lookup r p (some s) hl
      omega
    have hmem : sickInMap r p = true := sickInMap_of_lookup r p (some s) hl
    have hread := mapIndexRead_of_lookup r p (some s) hl
    simp [setSickVariant, resolveDevPath, hmem, hread, hi, hf, hlen]

/-- C1 witness: the theorem applied to a concrete Fast session, with both
hypotheses discharged at invalid raw arguments (angle 999, resolution 3). -/
theorem setSickVariant_fast_rejected_before_conversion_witness :
    setSickVariant [("/dev/ttyUSB0", some sampleFast)] 3 0 999 3 "" .success =
      ([("/dev/ttyUSB0", some sampleFast)], [], .err .fastUnsupported) :=
  (setSickVariant_fast_rejected_before_conversion 999 3 .success).1
    "/dev/ttyUSB0" "" sampleFast rfl rfl rfl

/-- C3: the capacity guard of initSick.  With the registry at the
process-wide maximum of four sessions, an init command fails with the
capacity error with the registry unchanged and no driver call made (no
session created, no entry modified); and an init command never grows the
registry beyond four entries. -/
theorem initSick_capacity_guard
    (r : Registry) (nrhs nlhs : Nat) (pathArg : String) (baudArg : Int)
    (beh : InitOutcome) :
    (nrhs = 3 → nlhs ≤ 1 → r.length = 4 →
        initSick r nrhs nlhs pathArg baudArg beh = (r, [], .err .capacity)) ∧
    (r.length ≤ 4 → (initSick r nrhs nlhs pathArg baudArg beh).1.length ≤ 4) := by
  constructor
  · intro h3 h1 h4
    subst h3
    simp [initSick, maxNumLmsDevices, h4, Nat.not_lt.mpr h1]
  · intro hle
    have hstep : (if sickInMap r pathArg then
          ((cleanup r pathArg).1, (cleanup r pathArg).2.1)
        else (r, ([] : List DriverCall))).1.length ≤ r.length := by
      by_cases hin : sickInMap r pathArg
      · simpa [hin] using cleanup_length_le r pathArg hin
      · simp [hin]
    simp only [initSick]
    split
    · simpa using hle
    split
    · simpa using hle
    split
    · simpa using hle
    rename_i h3 h2 h4
    have hr3 : r.length ≤ 3 := by
      simp [maxNumLmsDevices] at h4
      omega
    split
    · exact le_trans hstep (by omega)
    · rename_i hbu
      set A := (if sickInMap r pathArg then
            ((cleanup r pathArg).1, (cleanup r pathArg).2.1)
          else (r, ([] : List DriverCall))).1 with hAdef
      have hA3 : A.length ≤ 3 := le_trans hstep hr3
      have hstore : (mapStore A pathArg (some (blankSession pathArg))).length ≤ 4 :=
        le_trans (mapStore_length_le A pathArg _) (by omega)
      have hmem2 : sickInMap (mapStore A pathArg (some (blankSession pathArg))) pathArg = true :=
        sickInMap_mapStore_self A pathArg _
      cases beh with
      | success post =>
          rw [mapStore_length_of_mem _ pathArg _ _ (mapLookup_mapStore_self A pathArg _)]
          exact hstore
      | ioErr => exact le_trans (cleanup_length_le _ pathArg hmem2) hstore
      | otherErr => exact le_trans (cleanup_length_le _ pathArg hmem2) hstore

/-- C3 witness: the theorem applied to the concrete four-entry registry. -/
theorem initSick_capacity_guard_witness :
    initSick fullRegistry 3 1 "/dev/ttyUSB4" 9600 .ioErr =
      (fullRegistry, [], .err .capacity) ∧
    (initSick fullRegistry 3 1 "/dev/ttyUSB4" 9600 .ioErr).1.length ≤ 4 := by
  refine ⟨(initSick_capacity_guard fullRegistry 3 1 "/dev/ttyUSB4" 9600 .ioErr).1
      rfl (by decide) (by decide),
    (initSick_capacity_guard fullRegistry 3 1 "/dev/ttyUSB4" 9600 .ioErr).2
      (by decide)⟩

/-- C10: an init command naming an already-registered device path while the
registry is at the maximum of four entries fails with the capacity error
with the registry unchanged and no driver call - the duplicate-path
teardown never runs, so re-initializing a registered device at full
capacity fails; and the guard compares the size for equality rather than
greater-or-equal: on a (not reachable through the bridge) registry of five
entries the capacity error is not raised. -/
theorem initSick_capacity_equality_guard_blocks_reinit :
    (∀ (r : Registry) (nlhs : Nat) (p : String) (a : Int) (beh : InitOutcome),
        nlhs ≤ 1 → r.length = 4 → sickInMap r p = true →
        initSick r 3 nlhs p a beh = (r, [], .err .capacity)) ∧
    (∀ (r : Registry) (p : String) (a : Int) (beh : InitOutcome),
        r.length = 5 →
        (initSick r 3 0 p a beh).2.2 ≠ MexOutcome.err .capacity) := by
  constructor
  · intro r nlhs p a beh h1 h4 _
    simp [initSick, maxNumLmsDevices, h4, Nat.not_lt.mpr h1]
  · intro r p a beh h5
    have h4 : r.length ≠ maxNumLmsDevices := by
      simp [maxNumLmsDevices, h5]
    by_cases hbu : IntToSickBaud a = SickBaud.unknown
    · simp [initSick, h4, hbu]
    · cases beh <;> simp [initSick, h4, hbu]

/-- C10 witness: re-initializing the first registered path of the full
four-entry registry fails with the capacity error, and on a five-entry
registry the guard does not fire. -/
theorem initSick_capacity_equality_guard_blocks_reinit_witness :
    initSick fullRegistry 3 0 "/dev/ttyUSB0" 9600 .ioErr =
      (fullRegistry, [], .err .capacity) ∧
    (initSick (("/dev/ttyUSB4", some sampleStd) :: fullRegistry) 3 0
        "/dev/ttyUSB0" 9600 .ioErr).2.2 ≠ MexOutcome.err .capacity := by
  refine ⟨initSick_capacity_equality_guard_blocks_reinit.1 fullRegistry 0
      "/dev/ttyUSB0" 9600 .ioErr (by decide) (by decide) (by decide),
    initSick_capacity_equality_guard_blocks_reinit.2 _ "/dev/ttyUSB0" 9600 .ioErr
      (by decide)⟩

/-- C2: an init command naming an already-registered device path (with the
capacity guard passed) tears the old session down first - Uninitialize is
attempted exactly when the old session was initialized, the object deleted
and the entry erased - before the new session object is installed under
that path; afterwards the path maps to the new session, the path has
exactly one registry entry, and the at-most-one-entry-per-path invariant is
preserved for every path. -/
theorem initSick_duplicate_path_teardown_before_install
    (r : Registry) (nlhs : Nat) (p : String) (a : Int) (post old : SickLMS)
    (h1 : nlhs ≤ 1) (h4 : r.length ≠ 4)
    (hold : mapLookup r p = some (some old))
    (hbu : IntToSickBaud a ≠ SickBaud.unknown) :
    initSick r 3 nlhs p a (.success post) =
      (mapStore (mapStore (mapErase r p) p (some (blankSession p))) p (some post),
       (if old.initialized then [DriverCall.uninitCall p] else []) ++
         [DriverCall.initCall p (IntToSickBaud a)],
       .ok ⟨p, post.lmsFast, post.unitsMM, post.measMode⟩) ∧
    mapLookup (initSick r 3 nlhs p a (.success post)).1 p = some (some post) ∧
    (countKey r p ≤ 1 → countKey (initSick r 3 nlhs p a (.success post)).1 p = 1) ∧
    (∀ q, countKey r q ≤ 1 → countKey (initSick r 3 nlhs p a (.success post)).1 q ≤ 1) := by
  have hmem : sickInMap r p = true := sickInMap_of_lookup r p (some old) hold
  have hclean := cleanup_of_lookup r p old hold
  have hmain : initSick r 3 nlhs p a (.success post) =
      (mapStore (mapStore (mapErase r p) p (some (blankSession p))) p (some post),
       (if old.initialized then [DriverCall.uninitCall p] else []) ++
         [DriverCall.initCall p (IntToSickBaud a)],
       .ok ⟨p, post.lmsFast, post.unitsMM, post.measMode⟩) := by
    simp [initSick, maxNumLmsDevices, h4, Nat.not_lt.mpr h1, hmem, hclean, hbu]
  refine ⟨hmain, ?_, ?_, ?_⟩
  · rw [hmain]
    exact mapLookup_mapStore_self _ p _
  · intro hc
    rw [hmain]
    simp only [countKey_mapStore_self, countKey_mapErase_self]
    omega
  · intro q hq
    rw [hmain]
    by_cases hqp : q = p
    · subst hqp
      simp only [countKey_mapStore_self, countKey_mapErase_self]
      omega
    · rw [countKey_mapStore_ne _ _ _ _ hqp, countKey_mapStore_ne _ _ _ _ hqp]
      exact le_trans (countKey_mapErase_le r p q) hq

/-- C2 witness: re-initializing the single registered path tears down the
old initialized session (one Uninitialize attempt) before the Initialize
transmission, and installs the new session as the only entry. -/
theorem initSick_duplicate_path_teardown_before_install_witness :
    initSick [("/dev/ttyUSB0", some sampleStd)] 3 0 "/dev/ttyUSB0" 38400
        (.success sampleFast) =
      ([("/dev/ttyUSB0", some sampleFast)],
       [DriverCall.uninitCall "/dev/ttyUSB0",
        DriverCall.initCall "/dev/ttyUSB0" SickBaud.b38400],
       .ok ⟨"/dev/ttyUSB0", true, true, .rangeReflect⟩) ∧
    countKey [("/dev/ttyUSB0", some sampleFast)] "/dev/ttyUSB0" = 1 := by
  have h := initSick_duplicate_path_teardown_before_install
    [("/dev/ttyUSB0", some sampleStd)] 0 "/dev/ttyUSB0" 38400 sampleFast sampleStd
    (by decide) (by decide) (by rfl) (by decide)
  refine ⟨?_, by decide⟩
  have h1 := h.1
  simpa [sampleStd, sampleFast, IntToSickBaud, mapErase, mapStore, blankSession] using h1

/-- C4: mexExit drains the registry.  When every stored pointer is non-NULL
(as the bridge maintains), the exit hook empties the registry, attempts
Uninitialize exactly once for each initialized remaining session in
registry order, and counts - without stopping - one logged warning for each
initialized session whose Uninitialize throws, so a teardown failure
prevents neither that entry's removal nor the teardown of the remaining
sessions. -/
theorem mexExit_tears_down_every_session
    (r : Registry) (h : ∀ e ∈ r, e.2.isSome = true) :
    mexExit r =
      ([],
       r.filterMap (fun e => e.2.bind (fun s =>
         if s.initialized then some (DriverCall.uninitCall e.1) else none)),
       (r.filter (fun e =>
         (e.2.map (fun s => s.initialized && s.uninitThrows)).getD false)).length) := by
  induction r with
  | nil => rfl
  | cons e t ih =>
      obtain ⟨p, w⟩ := e
      have hw := h (p, w) (by simp)
      obtain ⟨s, rfl⟩ := Option.isSome_iff_exists.mp hw
      have ht : ∀ e2 ∈ t, e2.2.isSome = true := fun e2 he2 => h e2 (by simp [he2])
      have iht := ih ht
      unfold mexExit at iht ⊢
      have hlook : mapLookup ((p, some s) :: t) p = some (some s) := by
        simp [mapLookup]
      have hclean := cleanup_of_lookup ((p, some s) :: t) p s hlook
      have herase : mapErase ((p, some s) :: t) p = t := by
        simp [mapErase]
      rw [herase] at hclean
      simp only [List.length_cons, mexExitAux, hclean, iht]
      by_cases hi : s.initialized <;> by_cases hu : s.uninitThrows <;>
        simp [hi, hu, List.filterMap_cons, List.filter_cons, Nat.add_comm]

/-- C4 witness: a three-session registry holding one initialized session
whose teardown throws, one initialized session tearing down cleanly, and
one uninitialized session: the exit hook empties the registry, attempts
Uninitialize once for each of the two initialized sessions in order, and
logs exactly one warning. -/
theorem mexExit_tears_down_every_session_witness :
    mexExit [("/dev/ttyUSB1", some ⟨"/dev/ttyUSB1", true, false, true, .range, 1, 100, true⟩),
             ("/dev/ttyUSB0", some sampleStd),
             ("/dev/ttyUSB2", some ⟨"/dev/ttyUSB2", false, false, true, .range, 1, 100, false⟩)] =
      ([], [DriverCall.uninitCall "/dev/ttyUSB1", DriverCall.uninitCall "/dev/ttyUSB0"], 1) := by
  have h := mexExit_tears_down_every_session
    [("/dev/ttyUSB1", some ⟨"/dev/ttyUSB1", true, false, true, .range, 1, 100, true⟩),
     ("/dev/ttyUSB0", some sampleStd),
     ("/dev/ttyUSB2", some ⟨"/dev/ttyUSB2", false, false, true, .range, 1, 100, false⟩)]
    (by decide)
  simpa [sampleStd] using h

/-- C5: the unknown baud sentinel is rejected locally and never transmitted.
An init command whose integer baud argument converts to the unknown
sentinel fails with the validation error; no init command ever places an
Initialize transmission in its driver-call trace when the conversion
yields the sentinel; the example programs proceed past argument parsing
only with a non-sentinel baud; and a concrete invalid baud string makes
the examples exit at parse time. -/
theorem baud_unknown_rejected_before_transmission :
    (∀ (r : Registry) (nlhs : Nat) (p : String) (a : Int) (beh : InitOutcome),
        nlhs ≤ 1 → r.length ≠ 4 → IntToSickBaud a = SickBaud.unknown →
        (initSick r 3 nlhs p a beh).2.2 = .err .badBaud) ∧
    (∀ (r : Registry) (nrhs nlhs : Nat) (p : String) (a : Int) (beh : InitOutcome),
        IntToSickBaud a = SickBaud.unknown →
        ∀ (q : String) (b : SickBaud),
          DriverCall.initCall q b ∉ (initSick r nrhs nlhs p a beh).2.1) ∧
    (∀ (argv : List String) (p : String) (b : SickBaud),
        exampleMainStart argv = .proceed p b → b ≠ SickBaud.unknown) ∧
    (∀ (prog pth bs : String), StringToSickBaud bs = SickBaud.unknown →
        exampleMainStart [prog, pth, bs] = .badBaudExit) := by
  refine ⟨?_, ?_, ?_, ?_⟩
  · intro r nlhs p a beh h1 h4 hbu
    simp [initSick, maxNumLmsDevices, h4, Nat.not_lt.mpr h1, hbu]
  · intro r nrhs nlhs p a beh hbu q b
    by_cases h3 : nrhs = 3
    · subst h3
      by_cases h2 : nlhs > 1
      · simp [initSick, h2]
      · by_cases h4 : r.length = maxNumLmsDevices
        · simp [initSick, h2, h4]
        · by_cases hin : sickInMap r p
          · rcases cleanup_trace_cases r p with hc | hc <;>
              simp [initSick, h2, h4, hbu, hin, hc]
          · simp [initSick, h2, h4, hbu, hin]
    · simp [initSick, h3]
  · intro argv p b hpr
    simp only [exampleMainStart] at hpr
    split at hpr
    · exact absurd hpr (by simp)
    · split at hpr
      · cases hpr
        simp
      · split at hpr
        · exact absurd hpr (by simp)
        · rename_i hsb
          cases hpr
          exact hsb
  · intro prog pth bs hbs
    simp [exampleMainStart, hbs, List.getD]

/-- C5 witness: baud 12345 is rejected by init with no Initialize
transmission, and the example programs exit on the baud string 9601. -/
theorem baud_unknown_rejected_before_transmission_witness :
    (initSick [] 3 0 "/dev/ttyUSB0" 12345 .ioErr).2.2 = .err .badBaud ∧
    DriverCall.initCall "/dev/ttyUSB0" SickBaud.unknown ∉
      (initSick [] 3 0 "/dev/ttyUSB0" 12345 .ioErr).2.1 ∧
    exampleMainStart ["lms_simple_app", "/dev/ttyUSB0", "9601"] = .badBaudExit :=
  ⟨baud_unknown_rejected_before_transmission.1 [] 0 "/dev/ttyUSB0" 12345 .ioErr
      (by decide) (by decide) (by decide),
   baud_unknown_rejected_before_transmission.2.1 [] 3 0 "/dev/ttyUSB0" 12345 .ioErr
      (by decide) "/dev/ttyUSB0" SickBaud.unknown,
   baud_unknown_rejected_before_transmission.2.2.2 "lms_simple_app" "/dev/ttyUSB0"
      "9601" (by decide)⟩

theorem scanLoopAux_no_fatal (beh : Nat → ScanOutcome) :
    ∀ (fuel s : Nat), (∀ j < fuel, beh (s + j) ≠ .fatal) →
      scanLoopAux fuel s beh =
        (fuel, (List.range fuel).countP (fun j => decide (beh (s + j) = .timeout)),
         false) := by
  intro fuel
  induction fuel with
  | zero => intro s h; rfl
  | succ fuel ih =>
      intro s h
      have h0 : beh s ≠ .fatal := by simpa using h 0 (Nat.succ_pos fuel)
      have hshift : ∀ j < fuel, beh (s + 1 + j) ≠ .fatal := by
        intro j hj
        have hv := h (j + 1) (by omega)
        have heq : s + (j + 1) = s + 1 + j := by omega
        rwa [heq] at hv
      have ihs := ih (s + 1) hshift
      have hcount : (List.range (fuel + 1)).countP
            (fun j => decide (beh (s + j) = .timeout)) =
          (List.range fuel).countP (fun j => decide (beh (s + 1 + j) = .timeout)) +
            (if beh s = .timeout then 1 else 0) := by
        rw [List.range_succ_eq_map, List.countP_cons, List.countP_map]
        congr 1
        · congr 1
          funext j
          have heq : s + (j + 1) = s + 1 + j := by omega
          simp [Function.comp, Nat.succ_eq_add_one, heq]
        · simp
      cases hb : beh s with
      | fatal => exact absurd hb h0
      | timeout => simp [scanLoopAux, hb, ihs, hcount]
      | success n => simp [scanLoopAux, hb, ihs, hcount]

theorem scanLoopAux_fatal (beh : Nat → ScanOutcome) :
    ∀ (k fuel s : Nat), k < fuel → beh (s + k) = .fatal →
      (∀ j < k, beh (s + j) ≠ .fatal) →
      scanLoopAux fuel s beh =
        (k + 1, (List.range k).countP (fun j => decide (beh (s + j) = .timeout)),
         true) := by
  intro k
  induction k with
  | zero =>
      intro fuel s hk hf _
      obtain ⟨m, rfl⟩ : ∃ m, fuel = m + 1 := ⟨fuel - 1, by omega⟩
      simp only [Nat.add_zero] at hf
      simp [scanLoopAux, hf]
  | succ k ih =>
      intro fuel s hk hf hpre
      obtain ⟨m, rfl⟩ : ∃ m, fuel = m + 1 := ⟨fuel - 1, by omega⟩
      have h0 : beh s ≠ .fatal := by simpa using hpre 0 (by omega)
      have hf2 : beh (s + 1 + k) = .fatal := by
        have heq : s + (k + 1) = s + 1 + k := by omega
        rwa [heq] at hf
      have hpre2 : ∀ j < k, beh (s + 1 + j) ≠ .fatal := by
        intro j hj
        have hv := hpre (j + 1) (by omega)
        have heq : s + (j + 1) = s + 1 + j := by omega
        rwa [heq] at hv
      have ihs := ih m (s + 1) (by omega) hf2 hpre2
      have hcount : (List.range (k + 1)).countP
            (fun j => decide (beh (s + j) = .timeout)) =
          (List.range k).countP (fun j => decide (beh (s + 1 + j) = .timeout)) +
            (if beh s = .timeout then 1 else 0) := by
        rw [List.range_succ_eq_map, List.countP_cons, List.countP_map]
        congr 1
        · congr 1
          funext j
          have heq : s + (j + 1) = s + 1 + j := by omega
          simp [Function.comp, Nat.succ_eq_add_one, heq]
        · simp
      cases hb : beh s with
      | fatal => exact absurd hb h0
      | timeout => simp [scanLoopAux, hb, ihs, hcount]
      | success n => simp [scanLoopAux, hb, ihs, hcount]

/-- C6: the example acquisition loop is bounded at exactly 10 GetSickScan
attempts; a timeout outcome is caught, logged and the loop continues
polling the same session, so with no non-timeout exception the loop makes
all 10 attempts, logs one message per timeout and propagates nothing; the
first non-timeout exception ends the loop at that attempt by propagating
(after the timeouts before it were logged). -/
theorem example_scan_loop_timeout_policy (beh : Nat → ScanOutcome) :
    ((∀ i < 10, beh i ≠ .fatal) →
        getScanLoop beh =
          (10, (List.range 10).countP (fun i => decide (beh i = .timeout)), false)) ∧
    (∀ k, k < 10 → beh k = .fatal → (∀ j < k, beh j ≠ .fatal) →
        getScanLoop beh =
          (k + 1, (List.range k).countP (fun i => decide (beh i = .timeout)), true)) := by
  constructor
  · intro h
    have hv := scanLoopAux_no_fatal beh 10 0 (by
      intro j hj
      simpa using h j hj)
    simpa [getScanLoop] using hv
  · intro k hk hf hpre
    have hv := scanLoopAux_fatal beh k 10 0 hk (by simpa using hf) (by
      intro j hj
      simpa using hpre j hj)
    simpa [getScanLoop] using hv

/-- C6 witness: with timeouts at attempts 3 and 7 and successes elsewhere
the loop makes all 10 attempts and logs 2 timeouts; with a timeout at
attempt 2 and a non-timeout exception at attempt 5 the loop stops after 6
attempts with the exception propagated. -/
theorem example_scan_loop_timeout_policy_witness :
    getScanLoop (fun i => if i = 3 ∨ i = 7 then .timeout else .success 361) =
      (10, 2, false) ∧
    getScanLoop (fun i => if i = 2 then .timeout
      else if i = 5 then .fatal else .success 361) = (6, 1, true) :=
  ⟨((example_scan_loop_timeout_policy _).1 (by decide)).trans (by decide),
   ((example_scan_loop_timeout_policy _).2 5 (by decide) (by decide)
      (by decide)).trans (by decide)⟩

/-- C7: default-device resolution of the dispatched commands clear, variant,
grab and info.  With more than one registered session and no explicit path
each command fails demanding an explicit path; an explicit path mapping to
no registered session is rejected; and with exactly one registered session
and no explicit path each command behaves exactly as if the unique
session's path had been passed explicitly. -/
theorem dispatcher_default_device_resolution
    (angleArg : Int) (resArg : ℚ) (vbeh : VariantOutcome) (gbeh : GrabOutcome) :
    (∀ (r : Registry) (pathArg : String), 2 ≤ r.length →
        clearSick r 1 0 pathArg = (r, [], .err .multipleDevices) ∧
        setSickVariant r 3 0 angleArg resArg pathArg vbeh =
          (r, [], .err .multipleDevices) ∧
        grabSickVals r 1 1 pathArg gbeh = (r, [], .err .multipleDevices) ∧
        printSickInfo r 1 0 pathArg = (r, [], .err .multipleDevices)) ∧
    (∀ (r : Registry) (p : String), 1 ≤ r.length → sickInMap r p = false →
        clearSick r 2 0 p = (r, [], .err .pathNotFound) ∧
        setSickVariant r 4 0 angleArg resArg p vbeh =
          (r, [], .err .pathNotFound) ∧
        grabSickVals r 2 1 p gbeh = (r, [], .err .pathNotFound) ∧
        printSickInfo r 2 0 p = (r, [], .err .pathNotFound)) ∧
    (∀ (k : String) (s : SickLMS), s.devPath = k →
        clearSick [(k, some s)] 1 0 "" = clearSick [(k, some s)] 2 0 k ∧
        setSickVariant [(k, some s)] 3 0 angleArg resArg "" vbeh =
          setSickVariant [(k, some s)] 4 0 angleArg resArg k vbeh ∧
        grabSickVals [(k, some s)] 1 1 "" gbeh =
          grabSickVals [(k, some s)] 2 1 k gbeh ∧
        printSickInfo [(k, some s)] 1 0 "" = printSickInfo [(k, some s)] 2 0 k) := by
  refine ⟨?_, ?_, ?_⟩
  · intro r pathArg hlen
    have h0 : r.length ≠ 0 := by omega
    have h1 : r.length ≠ 1 := by omega
    exact ⟨by simp [clearSick, resolveDevPath, h0, h1],
           by simp [setSickVariant, resolveDevPath, h0, h1],
           by simp [grabSickVals, grabOutCheck, resolveDevPath, h0, h1],
           by simp [printSickInfo, resolveDevPath, h0, h1]⟩
  · intro r p hlen hnm
    have h0 : r.length ≠ 0 := by omega
    exact ⟨by simp [clearSick, resolveDevPath, h0, hnm],
           by simp [setSickVariant, resolveDevPath, h0, hnm],
           by simp [grabSickVals, grabOutCheck, resolveDevPath, h0, hnm],
           by simp [printSickInfo, resolveDevPath, h0, hnm]⟩
  · intro k s hk
    subst hk
    have hmem : sickInMap [(s.devPath, some s)] s.devPath = true := by
      simp [sickInMap, mapLookup]
    exact ⟨by simp [clearSick, resolveDevPath, hmem],
           by simp [setSickVariant, resolveDevPath, hmem],
           by simp [grabSickVals, grabOutCheck, resolveDevPath, hmem],
           by simp [printSickInfo, resolveDevPath, hmem]⟩

/-- C7 witness: with two sessions open, grab without a path demands an
explicit path; an unknown explicit path is rejected; and with one session
open, grab without a path equals grab with the unique session's path. -/
theorem dispatcher_default_device_resolution_witness :
    grabSickVals [("/dev/ttyUSB0", some sampleStd), ("/dev/ttyUSB1", some sampleStd1)]
        1 1 "" .otherErr =
      ([("/dev/ttyUSB0", some sampleStd), ("/dev/ttyUSB1", some sampleStd1)], [],
       .err .multipleDevices) ∧
    clearSick [("/dev/ttyUSB0", some sampleStd)] 2 0 "/dev/ttyUSB9" =
      ([("/dev/ttyUSB0", some sampleStd)], [], .err .pathNotFound) ∧
    grabSickVals [("/dev/ttyUSB0", some sampleStd)] 1 1 "" .otherErr =
      grabSickVals [("/dev/ttyUSB0", some sampleStd)] 2 1 "/dev/ttyUSB0" .otherErr :=
  ⟨((dispatcher_default_device_resolution 0 0 .success .otherErr).1
      [("/dev/ttyUSB0", some sampleStd), ("/dev/ttyUSB1", some sampleStd1)] ""
      (by decide)).2.2.1,
   ((dispatcher_default_device_resolution 0 0 .success .otherErr).2.1
      [("/dev/ttyUSB0", some sampleStd)] "/dev/ttyUSB9" (by decide) (by decide)).1,
   ((dispatcher_default_device_resolution 0 0 .success .otherErr).2.2
      "/dev/ttyUSB0" sampleStd rfl).2.2.1⟩

theorem grabOutCheck_not_ok (r : Registry) (c : Bool) (rA : Registry)
    (v : GrabStruct) : grabOutCheck r c ≠ (rA, some (.ok v)) := by
  unfold grabOutCheck
  split
  · split
    · simp
    · split <;> simp
  · simp

/-- C8: for every successful grab - whatever the registry, argument counts
and device path - the returned struct reports the post-scan scan resolution
and field of view read from the session after the scan, the bearing array
has exactly one entry per returned primary value, and the bearing at index
i equals (180 - fov) / 2 + i * resolution computed from the reported fov
and resolution, for every i below the primary-value count. -/
theorem grab_bearing_formula
    (r : Registry) (nrhs nlhs : Nat) (pathArg : String)
    (pri sec : List Nat) (post : SickLMS)
    (r2 : Registry) (tr : List DriverCall) (st : GrabStruct)
    (h : grabSickVals r nrhs nlhs pathArg (.success pri sec post) = (r2, tr, .ok st)) :
    st.res = post.scanRes ∧ st.fov = post.scanFov ∧
    st.bearing.length = pri.length ∧
    ∀ i, i < pri.length →
      st.bearing.getD i 0 = (180 - st.fov) / 2 + (i : ℚ) * st.res := by
  simp only [grabSickVals] at h
  split at h
  · simp at h
  · split at h
    · rename_i rA o heqA
      have ho : o = .ok st := by
        have hv := congrArg (fun z => z.2.2) h
        simpa using hv
      subst ho
      exact absurd heqA (grabOutCheck_not_ok _ _ _ _)
    · split at h
      · rename_i rB o heqB
        have ho : o = .ok st := by
          have hv := congrArg (fun z => z.2.2) h
          simpa using hv
        subst ho
        exact absurd heqB (grabOutCheck_not_ok _ _ _ _)
      · split at h
        · simp at h
        · split at h
          · simp at h
          · simp at h
          · split at h
            · simp at h
            · split at h
              · have hout := congrArg (fun z => z.2.2) h
                simp only [] at hout
                have hst := (MexOutcome.ok.injEq _ _).mp hout
                subst hst
                refine ⟨rfl, rfl, by simp, ?_⟩
                intro i hi
                simp [List.getD_eq_getElem?_getD, List.getElem?_map,
                  List.getElem?_range, hi]
              · simp at h

/-- Output struct computed by the concrete successful grab used as the C8
witness input. -/
def grabWitnessStruct : GrabStruct :=
  ⟨1/2, 180, some [512, 513, 514], none,
   [(180 - (180 : ℚ)) / 2 + ((0 : Nat) : ℚ) * (1/2),
    (180 - (180 : ℚ)) / 2 + ((1 : Nat) : ℚ) * (1/2),
    (180 - (180 : ℚ)) / 2 + ((2 : Nat) : ℚ) * (1/2)]⟩

/-- C8 witness: a successful explicit-path grab of three range values at
resolution 1/2 and field of view 180 returns the bearing array of the
formula values, and the bearing at index 1 satisfies the formula with the
reported fov and resolution. -/
theorem grab_bearing_formula_witness :
    grabSickVals [("/dev/ttyUSB0", some sampleStd)] 2 1 "/dev/ttyUSB0"
        (.success [512, 513, 514] [] sampleStd) =
      ([("/dev/ttyUSB0", some sampleStd)], [DriverCall.getScanCall "/dev/ttyUSB0"],
       .ok grabWitnessStruct) ∧
    grabWitnessStruct.bearing.getD 1 0 =
      (180 - grabWitnessStruct.fov) / 2 + ((1 : Nat) : ℚ) * grabWitnessStruct.res := by
  have hA : grabSickVals [("/dev/ttyUSB0", some sampleStd)] 2 1 "/dev/ttyUSB0"
      (.success [512, 513, 514] [] sampleStd) =
    ([("/dev/ttyUSB0", some sampleStd)], [DriverCall.getScanCall "/dev/ttyUSB0"],
     .ok grabWitnessStruct) := rfl
  exact ⟨hA,
    (grab_bearing_formula [("/dev/ttyUSB0", some sampleStd)] 2 1 "/dev/ttyUSB0"
      [512, 513, 514] [] sampleStd _ _ _ hA).2.2.2 1 (by decide)⟩
